import Mathlib

/-!
meteo-analyser: the per-city metrics and the aggregation step

A shallow embedding of `cmd/entities.go`, `cmd/config.go`, `cmd/service.go` and the
last line of `main` in `cmd/main.go`.

Modelling conventions:

* A `float64` temperature held in a `CityResponse` is a rational (`ℚ`): `AnalyseResponses`
  only compares these values, and on finite values the `float64` order is the order of
  the rationals; infinities and NaN are outside the model.
* The `float64` arithmetic inside `calculateMeanTemperature` (a rounded running sum and a
  rounded division) is not modelled: the definition below computes with exact rationals
  and agrees with the code only where the sum and the quotient are exact. It names the
  mean stored by `processCity`; it is evaluated only on 20, 25, 30, where every
  `float64` step is exact, and no general statement here is about its arithmetic.
* Go `int` is `Int`; every integer computed here is a count bounded by a slice length, so
  64-bit wrap-around cannot occur.
* Go `error` is `Option String`, `none` being `nil`.
* A Go slice that may be `nil` is `Option (List _)`: `none` is the nil slice and `some []`
  the empty non-nil slice.
* `log.Printf` calls have no effect on the program state and are left out.
* The remote fetch `service.fetchWeatherData` is network I/O; its outcome is an input of
  `processCity` (`Except String WeatherResponse`).
-/

namespace MeteoAnalyser

/-! ## entities.go -/

/-- The `City` record of `entities.go`. -/
structure City where
  City : String := ""
  Lat : String := ""
  Lng : String := ""
  Country : String := ""
  ISO2 : String := ""
  AdminName : String := ""
  Capital : String := ""
  Population : String := ""
  PopulationProper : String := ""
  deriving DecidableEq, Repr

/-- The `CityResponse` record of `entities.go`; the defaults are Go's zero values. -/
structure CityResponse where
  CityName : String := ""
  MeanTemperature : ℚ := 0
  DaysWithMist : Int := 0
  DaysWithClearSky : Int := 0
  Error : Option String := none
  deriving DecidableEq, Repr

/-- The `DailyUnits` record of `entities.go`. -/
structure DailyUnits where
  Time : String := ""
  WeatherCode : String := ""
  Temperature2mMean : String := ""
  deriving DecidableEq, Repr

/-- The `Daily` record of `entities.go`. -/
structure Daily where
  Time : List String := []
  WeatherCode : List Int := []
  Temperature2mMean : List ℚ := []
  deriving DecidableEq, Repr

/-- The `WeatherResponse` record of `entities.go`. -/
structure WeatherResponse where
  Latitude : ℚ := 0
  Longitude : ℚ := 0
  GenerationTimeMs : ℚ := 0
  UTCOffsetSeconds : Int := 0
  Timezone : String := ""
  TimezoneAbbr : String := ""
  Elevation : ℚ := 0
  DailyUnits : DailyUnits := {}
  Daily : Daily := {}
  deriving DecidableEq, Repr

/-- The `Results` record of `entities.go`; the defaults are Go's zero values. -/
@[ext]
structure Results where
  HighestMeanTemperatureCity : String := ""
  MostMistCity : String := ""
  MostClearSkyCity : String := ""
  deriving DecidableEq, Repr

/-! ## config.go -/

/-- The `config` record of `config.go`. -/
structure config where
  baseOpenMeteoURL : String := ""
  startDate : String := ""
  endDate : String := ""
  mistCode : Int := 0
  clearSkyCode : Int := 0
  inputFile : String := ""
  outputFile : String := ""
  numWorkers : Int := 0
  bufferSize : Int := 0
  deriving DecidableEq, Repr

/-! ## service.go -/

/-- The `service` record of `service.go`, without the HTTP client handle. -/
structure service where
  config : MeteoAnalyser.config := {}
  responses : Option (List CityResponse) := none
  results : Results := {}
  count : Int := 0
  deriving DecidableEq, Repr

/-- `calculateMeanTemperature`: 0 on the empty slice, otherwise the running sum of the
loop divided by the length, with the `float64` operations idealised to exact rational
ones. The code rounds after every addition and after the division and overflows to
`+Inf`, so on 1, 1, 2 it returns 6004799503160661/2^52 where this definition gives 4/3. -/
def calculateMeanTemperature (temps : List ℚ) : ℚ :=
  if temps.length = 0 then 0
  else temps.foldl (fun sum temp => sum + temp) 0 / (temps.length : ℚ)

/-- `countWeatherCodes`: the loop incrementing `count` at every code equal to
`desiredCode`. -/
def countWeatherCodes (weatherCodes : List Int) (desiredCode : Int) : Int :=
  weatherCodes.foldl (fun count code => if code = desiredCode then count + 1 else count) 0

/-- `service.processCity`, given the outcome `fetched` of
`s.fetchWeatherData(city.Lat, city.Lng, s.config.startDate, s.config.endDate)`. -/
def processCity (s : service) (city : City) (fetched : Except String WeatherResponse) :
    CityResponse :=
  match fetched with
  | Except.error err => { CityName := city.City, Error := some err }
  | Except.ok resp =>
    { CityName := city.City
      MeanTemperature := calculateMeanTemperature resp.Daily.Temperature2mMean
      DaysWithMist := countWeatherCodes resp.Daily.WeatherCode s.config.mistCode
      DaysWithClearSky := countWeatherCodes resp.Daily.WeatherCode s.config.clearSkyCode
      Error := none }

/-- The variables live across the `for` loop of `AnalyseResponses`: its three locals and
the two fields of the receiver that the loop writes. -/
structure AnalyseState where
  highestMeanTemp : ℚ := 0
  mostMist : Int := 0
  mostClearSky : Int := 0
  results : Results := {}
  count : Int := 0
  deriving DecidableEq, Repr

/-- One iteration of the `for` loop of `AnalyseResponses`. -/
def analyseStep (st : AnalyseState) (r : CityResponse) : AnalyseState :=
  if r.Error ≠ none then st
  else
    let st1 : AnalyseState :=
      if r.MeanTemperature > st.highestMeanTemp then
        { st with
          highestMeanTemp := r.MeanTemperature
          results := { st.results with HighestMeanTemperatureCity := r.CityName } }
      else st
    let st2 : AnalyseState :=
      if r.DaysWithMist > st1.mostMist then
        { st1 with
          mostMist := r.DaysWithMist
          results := { st1.results with MostMistCity := r.CityName } }
      else st1
    let st3 : AnalyseState :=
      if r.DaysWithClearSky > st2.mostClearSky then
        { st2 with
          mostClearSky := r.DaysWithClearSky
          results := { st2.results with MostClearSkyCity := r.CityName } }
      else st2
    { st3 with count := st3.count + 1 }

/-- The two sentinel assignments after the loop of `AnalyseResponses`. -/
def applySentinels (st : AnalyseState) : Results :=
  let r1 : Results :=
    if st.mostMist = 0 ∧ st.results.MostMistCity = "" then
      { st.results with MostMistCity := "No city had mist" }
    else st.results
  if st.mostClearSky = 0 ∧ r1.MostClearSkyCity = "" then
    { r1 with MostClearSkyCity := "No city had clear sky" }
  else r1

/-- `service.AnalyseResponses`: the receiver after the call, and the returned error. -/
def AnalyseResponses (s : service) : service × Option String :=
  match s.responses with
  | none => (s, some "no responses to analyse, run the collection step first")
  | some responses =>
    let st := responses.foldl analyseStep
      { highestMeanTemp := 0, mostMist := 0, mostClearSky := 0
        results := s.results, count := s.count }
    ({ s with results := applySentinels st, count := st.count }, none)

/-- The expression `duration/time.Duration(svc.count)` of `main`: Go's integer division,
which panics (`none`) on a zero divisor and truncates toward zero otherwise. -/
def averageTimePerCity (duration : Int) (svc : service) : Option Int :=
  if svc.count = 0 then none else some (Int.tdiv duration svc.count)


/-! ## Concrete inputs -/

/-- The responses of the "Successful analysis" case of `TestService_AnalyseResponses`. -/
def successfulAnalysis : List CityResponse :=
  [ { CityName := "CityA", MeanTemperature := 20, DaysWithMist := 3, DaysWithClearSky := 5 },
    { CityName := "CityB", MeanTemperature := 25, DaysWithMist := 2, DaysWithClearSky := 6 } ]

/-- Two successful responses with the same mean temperature. -/
def tiedAB : List CityResponse :=
  [ { CityName := "CityA", MeanTemperature := 5 },
    { CityName := "CityB", MeanTemperature := 5 } ]

/-- The list `tiedAB` in the other arrival order. -/
def tiedBA : List CityResponse :=
  [ { CityName := "CityB", MeanTemperature := 5 },
    { CityName := "CityA", MeanTemperature := 5 } ]

/-- One successful response whose mean temperature is below zero. -/
def freezing : List CityResponse :=
  [ { CityName := "Oslo", MeanTemperature := -5, DaysWithMist := 2, DaysWithClearSky := 1 } ]

/-- Two failed responses, one of them carrying numeric values. -/
def allFailed : List CityResponse :=
  [ { CityName := "CityA", MeanTemperature := 30, DaysWithMist := 4, DaysWithClearSky := 5,
      Error := some "failed to make request: timeout" },
    { CityName := "CityB", Error := some "bad status: 500, body: Internal Server Error" } ]

/-! ## Specification vocabulary -/

/-- A response is successful when its `Error` is `nil`. -/
def Successful (r : CityResponse) : Prop := r.Error = none

instance (r : CityResponse) : Decidable (Successful r) := by
  unfold Successful; infer_instance

/-- The statement "`name` is the `CityName` of the first successful response of `l`, in list
order, whose metric `m` is at least the metric of every successful response of `l`":
the list splits around that response, every successful response before it is
strictly smaller and every successful response after it is no larger. -/
def IsFirstSuccessfulMax {α : Type} [LinearOrder α] (m : CityResponse → α)
    (l : List CityResponse) (name : String) : Prop :=
  ∃ pre r post, l = pre ++ r :: post ∧ Successful r ∧ name = r.CityName
    ∧ (∀ x ∈ pre, Successful x → m x < m r)
    ∧ (∀ x ∈ post, Successful x → m x ≤ m r)

/-- No two successful responses with different names share a positive maximum of the
metric `m`. -/
def NoTieAtMax {α : Type} [LinearOrder α] [Zero α] (m : CityResponse → α)
    (l : List CityResponse) : Prop :=
  ∀ r₁ ∈ l, ∀ r₂ ∈ l, Successful r₁ → Successful r₂ → 0 < m r₁ → m r₁ = m r₂ →
    (∀ x ∈ l, Successful x → m x ≤ m r₁) → r₁.CityName = r₂.CityName

/-- Proof device: the part of `analyseStep` that concerns a single metric `m`, acting on
the pair (running maximum, name recorded for it). -/
def track {α : Type} [LinearOrder α] (m : CityResponse → α) (p : α × String)
    (r : CityResponse) : α × String :=
  if r.Error ≠ none then p else if m r > p.1 then (m r, r.CityName) else p

/-! ## The per-city metrics -/

/-- The counting loop started from `acc` adds the number of occurrences of the code. -/
theorem foldl_count_acc (weatherCodes : List Int) (desiredCode acc : Int) :
    weatherCodes.foldl (fun count code => if code = desiredCode then count + 1 else count) acc
      = acc + (List.count desiredCode weatherCodes : Int) := by
  induction weatherCodes generalizing acc with
  | nil => simp
  | cons c cs ih =>
    simp only [List.foldl_cons, ih, List.count_cons]
    by_cases h : c = desiredCode
    · simp [h]; ring
    · simp [h]

/-- The number of occurrences of `d` is the number of positions holding `d`. -/
theorem count_eq_positions (l : List Int) (d : Int) :
    List.count d l = ((List.finRange l.length).filter (fun i => l.get i = d)).length := by
  conv_lhs => rw [← List.finRange_map_get l]
  rw [List.count, List.countP_map, List.countP_eq_length_filter]
  congr 1

/-- C9: for every list of weather codes and every desired code, `countWeatherCodes` returns
the number of positions of the list whose value equals the desired code (which is also
`List.count`); it returns 0 on the empty list, 0 when no element matches, the length when
every element matches, and always lies between 0 and the length. -/
theorem countWeatherCodes_spec (weatherCodes : List Int) (desiredCode : Int) :
    countWeatherCodes weatherCodes desiredCode
        = (((List.finRange weatherCodes.length).filter
            (fun i => weatherCodes.get i = desiredCode)).length : Int)
      ∧ countWeatherCodes weatherCodes desiredCode = (List.count desiredCode weatherCodes : Int)
      ∧ countWeatherCodes [] desiredCode = 0
      ∧ ((∀ c ∈ weatherCodes, c ≠ desiredCode) →
          countWeatherCodes weatherCodes desiredCode = 0)
      ∧ ((∀ c ∈ weatherCodes, c = desiredCode) →
          countWeatherCodes weatherCodes desiredCode = (weatherCodes.length : Int))
      ∧ 0 ≤ countWeatherCodes weatherCodes desiredCode
      ∧ countWeatherCodes weatherCodes desiredCode ≤ (weatherCodes.length : Int) := by
  have hc : ∀ l : List Int, countWeatherCodes l desiredCode = (List.count desiredCode l : Int) := by
    intro l
    simp [countWeatherCodes, foldl_count_acc]
  refine ⟨?_, hc _, by simp [countWeatherCodes], ?_, ?_, ?_, ?_⟩
  · rw [hc, count_eq_positions]
  · intro h
    rw [hc]
    have : List.count desiredCode weatherCodes = 0 := by
      rw [List.count_eq_zero]
      intro hmem
      exact h _ hmem rfl
    simp [this]
  · intro h
    rw [hc]
    have : List.count desiredCode weatherCodes = weatherCodes.length := by
      rw [List.count_eq_length]
      intro c hcm
      exact (h c hcm).symm
    simp [this]
  · rw [hc]; exact Int.natCast_nonneg _
  · rw [hc]; exact_mod_cast List.count_le_length _ _

/-- C7: for every city and every outcome of the fetch, `processCity` returns one
`CityResponse` named after the city; on a failed fetch it carries the failure in `Error`
and its three numeric fields are zero; on a successful fetch `Error` is `nil`, the mean is
`calculateMeanTemperature` of the fetched temperatures and the two counts are
`countWeatherCodes` of the fetched codes for `config.mistCode` and
`config.clearSkyCode`. -/
theorem processCity_spec (s : service) (city : City) (fetched : Except String WeatherResponse) :
    (processCity s city fetched).CityName = city.City
      ∧ (∀ err, fetched = Except.error err →
          processCity s city fetched = { CityName := city.City, Error := some err }
          ∧ (processCity s city fetched).Error = some err
          ∧ (processCity s city fetched).MeanTemperature = 0
          ∧ (processCity s city fetched).DaysWithMist = 0
          ∧ (processCity s city fetched).DaysWithClearSky = 0)
      ∧ (∀ resp, fetched = Except.ok resp →
          (processCity s city fetched).Error = none
          ∧ (processCity s city fetched).MeanTemperature
              = calculateMeanTemperature resp.Daily.Temperature2mMean
          ∧ (processCity s city fetched).DaysWithMist
              = countWeatherCodes resp.Daily.WeatherCode s.config.mistCode
          ∧ (processCity s city fetched).DaysWithClearSky
              = countWeatherCodes resp.Daily.WeatherCode s.config.clearSkyCode) := by
  refine ⟨?_, ?_, ?_⟩
  · cases fetched <;> rfl
  · rintro err rfl
    exact ⟨rfl, rfl, rfl, rfl, rfl⟩
  · rintro resp rfl
    exact ⟨rfl, rfl, rfl, rfl⟩

/-! ## One metric at a time -/

/-- When no successful response exceeds the running maximum, the loop leaves the pair
unchanged. -/
theorem track_foldl_of_le {α : Type} [LinearOrder α] (m : CityResponse → α)
    (l : List CityResponse) (p : α × String)
    (h : ∀ r ∈ l, Successful r → m r ≤ p.1) : l.foldl (track m) p = p := by
  induction l with
  | nil => rfl
  | cons x xs ih =>
    have hx : track m p x = p := by
      unfold track
      by_cases hs : x.Error = none
      · have := h x (List.mem_cons_self _ _) hs
        simp [hs, not_lt.mpr this]
      · simp [hs]
    rw [List.foldl_cons, hx]
    exact ih (fun r hr => h r (List.mem_cons_of_mem _ hr))

/-- When some successful response exceeds the start value, the loop ends at the first
successful response that attains the maximum. -/
theorem track_foldl_first_max {α : Type} [LinearOrder α] (m : CityResponse → α)
    (l : List CityResponse) (p : α × String)
    (h : ∃ r ∈ l, Successful r ∧ p.1 < m r) :
    ∃ pre r post, l = pre ++ r :: post ∧ Successful r ∧ p.1 < m r
      ∧ (∀ x ∈ pre, Successful x → m x < m r)
      ∧ (∀ x ∈ post, Successful x → m x ≤ m r)
      ∧ l.foldl (track m) p = (m r, r.CityName) := by
  induction l generalizing p with
  | nil => obtain ⟨r, hr, _⟩ := h; cases hr
  | cons x xs ih =>
    by_cases hx : Successful x ∧ p.1 < m x
    · have hstep : track m p x = (m x, x.CityName) := by
        have h1 : x.Error = none := hx.1
        simp [track, h1, hx.2]
      by_cases hrest : ∃ r ∈ xs, Successful r ∧ m x < m r
      · obtain ⟨pre, r, post, hl, hr, hlt, hpre, hpost, hfold⟩ :=
          ih (m x, x.CityName) hrest
        refine ⟨x :: pre, r, post, by simp [hl], hr, lt_trans hx.2 hlt, ?_, hpost, ?_⟩
        · intro y hy hys
          rcases List.mem_cons.mp hy with rfl | hy
          · exact hlt
          · exact hpre y hy hys
        · rw [List.foldl_cons, hstep, hfold]
      · refine ⟨[], x, xs, rfl, hx.1, hx.2, by simp, ?_, ?_⟩
        · intro y hy hys
          by_contra hcon
          exact hrest ⟨y, hy, hys, not_le.mp hcon⟩
        · rw [List.foldl_cons, hstep]
          apply track_foldl_of_le
          intro y hy hys
          by_contra hcon
          exact hrest ⟨y, hy, hys, not_le.mp hcon⟩
    · have hstep : track m p x = p := by
        unfold track
        by_cases hs : x.Error = none
        · have : ¬ p.1 < m x := fun hlt => hx ⟨hs, hlt⟩
          simp [hs, this]
        · simp [hs]
      have hrest : ∃ r ∈ xs, Successful r ∧ p.1 < m r := by
        obtain ⟨r, hr, hrs, hlt⟩ := h
        rcases List.mem_cons.mp hr with rfl | hr
        · exact absurd ⟨hrs, hlt⟩ hx
        · exact ⟨r, hr, hrs, hlt⟩
      obtain ⟨pre, r, post, hl, hr, hlt, hpre, hpost, hfold⟩ := ih p hrest
      refine ⟨x :: pre, r, post, by simp [hl], hr, hlt, ?_, hpost, ?_⟩
      · intro y hy hys
        rcases List.mem_cons.mp hy with rfl | hy
        · have : ¬ p.1 < m y := fun hlt => hx ⟨hys, hlt⟩
          exact lt_of_le_of_lt (not_lt.mp this) hlt
        · exact hpre y hy hys
      · rw [List.foldl_cons, hstep, hfold]

/-- The running maximum and its name after the loop: either nothing exceeded the start
value and the pair is unchanged, or the pair is that of a successful response attaining the
maximum over the successful responses. -/
theorem track_foldl_cases {α : Type} [LinearOrder α] (m : CityResponse → α)
    (l : List CityResponse) (p : α × String) :
    ((∀ r ∈ l, Successful r → m r ≤ p.1) ∧ l.foldl (track m) p = p)
    ∨ (∃ r ∈ l, Successful r ∧ p.1 < m r ∧ (∀ x ∈ l, Successful x → m x ≤ m r)
        ∧ l.foldl (track m) p = (m r, r.CityName)) := by
  by_cases h : ∃ r ∈ l, Successful r ∧ p.1 < m r
  · right
    obtain ⟨pre, r, post, hl, hr, hlt, hpre, hpost, hfold⟩ := track_foldl_first_max m l p h
    refine ⟨r, by simp [hl], hr, hlt, ?_, hfold⟩
    intro x hx hxs
    rw [hl] at hx
    rcases List.mem_append.mp hx with hx | hx
    · exact le_of_lt (hpre x hx hxs)
    · rcases List.mem_cons.mp hx with rfl | hx
      · exact le_refl _
      · exact hpost x hx hxs
  · left
    have hle : ∀ r ∈ l, Successful r → m r ≤ p.1 := by
      intro r hr hrs
      by_contra hcon
      exact h ⟨r, hr, hrs, not_le.mp hcon⟩
    exact ⟨hle, track_foldl_of_le m l p hle⟩

/-- The no-tie condition does not depend on the order of the list. -/
theorem noTieAtMax_perm {α : Type} [LinearOrder α] [Zero α] (m : CityResponse → α)
    {l l' : List CityResponse} (hperm : l.Perm l') (h : NoTieAtMax m l) :
    NoTieAtMax m l' := by
  intro r₁ h₁ r₂ h₂ hs₁ hs₂ hpos heq hmax
  exact h r₁ (hperm.mem_iff.mpr h₁) r₂ (hperm.mem_iff.mpr h₂) hs₁ hs₂ hpos heq
    (fun x hx => hmax x (hperm.mem_iff.mp hx))

/-- Without a tie at a positive maximum, the running maximum and its name do not depend on
the order of the list. -/
theorem track_foldl_perm {α : Type} [LinearOrder α] [Zero α] (m : CityResponse → α)
    {l l' : List CityResponse} (hperm : l.Perm l') (name : String)
    (h : NoTieAtMax m l) :
    l.foldl (track m) (0, name) = l'.foldl (track m) (0, name) := by
  rcases track_foldl_cases m l (0, name) with ⟨hle, hf⟩ | ⟨r, hr, hrs, hlt, hmax, hf⟩
  · rw [hf]
    symm
    apply track_foldl_of_le
    intro x hx
    exact hle x (hperm.mem_iff.mpr hx)
  · rcases track_foldl_cases m l' (0, name) with
      ⟨hle', hf'⟩ | ⟨r', hr', hrs', hlt', hmax', hf'⟩
    · exact absurd (hle' r (hperm.mem_iff.mp hr) hrs) (not_le.mpr hlt)
    · have hr'l : r' ∈ l := hperm.mem_iff.mpr hr'
      have heq : m r = m r' :=
        le_antisymm (hmax' r (hperm.mem_iff.mp hr) hrs) (hmax r' hr'l hrs')
      have hname : r.CityName = r'.CityName := h r hr r' hr'l hrs hrs' hlt heq hmax
      rw [hf, hf', heq, hname]

/-! ## The loop of `AnalyseResponses`, metric by metric -/

/-- A failed response leaves the loop state unchanged. -/
theorem analyseStep_of_error (st : AnalyseState) (r : CityResponse) (h : ¬ Successful r) :
    analyseStep st r = st := by
  unfold Successful at h
  simp [analyseStep, h]

theorem analyseStep_mean (st : AnalyseState) (r : CityResponse) :
    ((analyseStep st r).highestMeanTemp, (analyseStep st r).results.HighestMeanTemperatureCity)
      = track (fun x => x.MeanTemperature)
          (st.highestMeanTemp, st.results.HighestMeanTemperatureCity) r := by
  unfold analyseStep track
  by_cases h : r.Error = none
  · simp only [h, ne_eq, not_true_eq_false, if_false]
    split_ifs <;> rfl
  · simp [h]

theorem analyseStep_mist (st : AnalyseState) (r : CityResponse) :
    ((analyseStep st r).mostMist, (analyseStep st r).results.MostMistCity)
      = track (fun x => x.DaysWithMist) (st.mostMist, st.results.MostMistCity) r := by
  unfold analyseStep track
  by_cases h : r.Error = none
  · simp only [h, ne_eq, not_true_eq_false, if_false]
    split_ifs <;> rfl
  · simp [h]

theorem analyseStep_clearSky (st : AnalyseState) (r : CityResponse) :
    ((analyseStep st r).mostClearSky, (analyseStep st r).results.MostClearSkyCity)
      = track (fun x => x.DaysWithClearSky) (st.mostClearSky, st.results.MostClearSkyCity) r := by
  unfold analyseStep track
  by_cases h : r.Error = none
  · simp only [h, ne_eq, not_true_eq_false, if_false]
    split_ifs <;> rfl
  · simp [h]

theorem analyseStep_count (st : AnalyseState) (r : CityResponse) :
    (analyseStep st r).count = st.count + (if r.Error = none then 1 else 0) := by
  unfold analyseStep
  by_cases h : r.Error = none
  · simp only [h, ne_eq, not_true_eq_false, if_false, if_true]
    split_ifs <;> rfl
  · simp [h]

theorem foldl_analyseStep_mean (l : List CityResponse) (st : AnalyseState) :
    ((l.foldl analyseStep st).highestMeanTemp,
      (l.foldl analyseStep st).results.HighestMeanTemperatureCity)
      = l.foldl (track (fun x => x.MeanTemperature))
          (st.highestMeanTemp, st.results.HighestMeanTemperatureCity) := by
  induction l generalizing st with
  | nil => rfl
  | cons x xs ih => rw [List.foldl_cons, List.foldl_cons, ih, analyseStep_mean]

theorem foldl_analyseStep_mist (l : List CityResponse) (st : AnalyseState) :
    ((l.foldl analyseStep st).mostMist, (l.foldl analyseStep st).results.MostMistCity)
      = l.foldl (track (fun x => x.DaysWithMist)) (st.mostMist, st.results.MostMistCity) := by
  induction l generalizing st with
  | nil => rfl
  | cons x xs ih => rw [List.foldl_cons, List.foldl_cons, ih, analyseStep_mist]

theorem foldl_analyseStep_clearSky (l : List CityResponse) (st : AnalyseState) :
    ((l.foldl analyseStep st).mostClearSky, (l.foldl analyseStep st).results.MostClearSkyCity)
      = l.foldl (track (fun x => x.DaysWithClearSky))
          (st.mostClearSky, st.results.MostClearSkyCity) := by
  induction l generalizing st with
  | nil => rfl
  | cons x xs ih => rw [List.foldl_cons, List.foldl_cons, ih, analyseStep_clearSky]

theorem foldl_analyseStep_count (l : List CityResponse) (st : AnalyseState) :
    (l.foldl analyseStep st).count
      = st.count + ((l.filter (fun r => decide (r.Error = none))).length : Int) := by
  induction l generalizing st with
  | nil => simp
  | cons x xs ih =>
    rw [List.foldl_cons, ih, analyseStep_count]
    by_cases h : x.Error = none
    · simp [h]; ring
    · simp [h]

/-! ## `AnalyseResponses` in terms of the three running maxima -/

theorem applySentinels_highest (st : AnalyseState) :
    (applySentinels st).HighestMeanTemperatureCity = st.results.HighestMeanTemperatureCity := by
  unfold applySentinels
  simp only []
  split_ifs <;> rfl

theorem applySentinels_mist (st : AnalyseState) :
    (applySentinels st).MostMistCity
      = if st.mostMist = 0 ∧ st.results.MostMistCity = "" then "No city had mist"
        else st.results.MostMistCity := by
  unfold applySentinels
  simp only []
  split_ifs <;> rfl

theorem applySentinels_clearSky (st : AnalyseState) :
    (applySentinels st).MostClearSkyCity
      = if st.mostClearSky = 0 ∧ st.results.MostClearSkyCity = "" then "No city had clear sky"
        else st.results.MostClearSkyCity := by
  unfold applySentinels
  simp only []
  split_ifs <;> rfl

theorem AnalyseResponses_of_some (s : service) (l : List CityResponse)
    (h : s.responses = some l) :
    AnalyseResponses s
      = ({ s with
            results := applySentinels (l.foldl analyseStep
              { highestMeanTemp := 0, mostMist := 0, mostClearSky := 0
                results := s.results, count := s.count })
            count := (l.foldl analyseStep
              { highestMeanTemp := 0, mostMist := 0, mostClearSky := 0
                results := s.results, count := s.count }).count }, none) := by
  unfold AnalyseResponses
  rw [h]

theorem AnalyseResponses_highest_eq (s : service) (l : List CityResponse)
    (h : s.responses = some l) :
    (AnalyseResponses s).1.results.HighestMeanTemperatureCity
      = (l.foldl (track (fun x => x.MeanTemperature))
          (0, s.results.HighestMeanTemperatureCity)).2 := by
  rw [AnalyseResponses_of_some s l h]
  simp only [applySentinels_highest]
  exact congrArg Prod.snd (foldl_analyseStep_mean l _)

theorem AnalyseResponses_mist_eq (s : service) (l : List CityResponse)
    (h : s.responses = some l) :
    (AnalyseResponses s).1.results.MostMistCity
      = if (l.foldl (track (fun x => x.DaysWithMist)) (0, s.results.MostMistCity)).1 = 0
            ∧ (l.foldl (track (fun x => x.DaysWithMist)) (0, s.results.MostMistCity)).2 = ""
        then "No city had mist"
        else (l.foldl (track (fun x => x.DaysWithMist)) (0, s.results.MostMistCity)).2 := by
  rw [AnalyseResponses_of_some s l h]
  simp only [applySentinels_mist]
  have hf := foldl_analyseStep_mist l
    { highestMeanTemp := 0, mostMist := 0, mostClearSky := 0
      results := s.results, count := s.count }
  have h1 := congrArg Prod.fst hf
  have h2 := congrArg Prod.snd hf
  simp only at h1 h2
  rw [h1, h2]

theorem AnalyseResponses_clearSky_eq (s : service) (l : List CityResponse)
    (h : s.responses = some l) :
    (AnalyseResponses s).1.results.MostClearSkyCity
      = if (l.foldl (track (fun x => x.DaysWithClearSky))
              (0, s.results.MostClearSkyCity)).1 = 0
            ∧ (l.foldl (track (fun x => x.DaysWithClearSky))
              (0, s.results.MostClearSkyCity)).2 = ""
        then "No city had clear sky"
        else (l.foldl (track (fun x => x.DaysWithClearSky))
              (0, s.results.MostClearSkyCity)).2 := by
  rw [AnalyseResponses_of_some s l h]
  simp only [applySentinels_clearSky]
  have hf := foldl_analyseStep_clearSky l
    { highestMeanTemp := 0, mostMist := 0, mostClearSky := 0
      results := s.results, count := s.count }
  have h1 := congrArg Prod.fst hf
  have h2 := congrArg Prod.snd hf
  simp only at h1 h2
  rw [h1, h2]

theorem AnalyseResponses_count_eq (s : service) (l : List CityResponse)
    (h : s.responses = some l) :
    (AnalyseResponses s).1.count
      = s.count + ((l.filter (fun r => decide (r.Error = none))).length : Int) := by
  rw [AnalyseResponses_of_some s l h]
  exact foldl_analyseStep_count l _

/-- A metric whose running maximum starts at 0 with an empty name: when some successful
response is positive the recorded name is that of the first successful maximum, and when
none is the pair is still `(0, "")`. -/
theorem track_foldl_zero {α : Type} [LinearOrder α] [Zero α] (m : CityResponse → α)
    (l : List CityResponse) :
    ((∃ r ∈ l, Successful r ∧ 0 < m r) →
        0 < (l.foldl (track m) (0, "")).1
        ∧ IsFirstSuccessfulMax m l (l.foldl (track m) (0, "")).2)
    ∧ ((¬ ∃ r ∈ l, Successful r ∧ 0 < m r) → l.foldl (track m) (0, "") = (0, "")) := by
  constructor
  · intro h
    obtain ⟨pre, r, post, hl, hr, hlt, hpre, hpost, hfold⟩ :=
      track_foldl_first_max m l (0, "") h
    rw [hfold]
    exact ⟨hlt, pre, r, post, hl, hr, rfl, hpre, hpost⟩
  · intro h
    apply track_foldl_of_le
    intro r hr hrs
    by_contra hcon
    exact h ⟨r, hr, hrs, not_le.mp hcon⟩

/-! ## Claims about `AnalyseResponses` -/

/-- Supporting fact for C1: on a service whose `HighestMeanTemperatureCity` is initially
empty, if some successful response has a positive mean temperature then the field ends as
the name of the first successful response with the maximum mean temperature; if none has,
the field is still empty. -/
theorem AnalyseResponses_highest_mean_general (s : service) (l : List CityResponse)
    (hresp : s.responses = some l) (hres : s.results.HighestMeanTemperatureCity = "") :
    ((∃ r ∈ l, Successful r ∧ 0 < r.MeanTemperature) →
        IsFirstSuccessfulMax (fun r => r.MeanTemperature) l
          (AnalyseResponses s).1.results.HighestMeanTemperatureCity)
    ∧ ((¬ ∃ r ∈ l, Successful r ∧ 0 < r.MeanTemperature) →
        (AnalyseResponses s).1.results.HighestMeanTemperatureCity = "") := by
  rw [AnalyseResponses_highest_eq s l hresp, hres]
  have h := track_foldl_zero (fun r : CityResponse => r.MeanTemperature) l
  refine ⟨fun hpos => (h.1 hpos).2, fun hnone => ?_⟩
  rw [h.2 hnone]

/-- C1 at a failing input: with the single successful response `Oslo` of mean
temperature -5, `AnalyseResponses` returns no error and leaves
`HighestMeanTemperatureCity` empty, although `Oslo` is the first successful response with
the maximum mean temperature and the empty name is not. -/
theorem AnalyseResponses_highest_mean_freezing :
    (AnalyseResponses { responses := some freezing }).2 = none
    ∧ (AnalyseResponses { responses := some freezing }).1.results.HighestMeanTemperatureCity
        = ""
    ∧ IsFirstSuccessfulMax (fun r => r.MeanTemperature) freezing "Oslo"
    ∧ ¬ IsFirstSuccessfulMax (fun r => r.MeanTemperature) freezing "" := by
  refine ⟨by decide, by decide, ?_, ?_⟩
  · exact ⟨[], _, [], rfl, rfl, rfl, by simp, by simp⟩
  · rintro ⟨pre, r, post, hl, -, hname, -, -⟩
    have hmem : r ∈ freezing := by rw [hl]; simp
    have hr : r.CityName = "Oslo" := by
      simp only [freezing, List.mem_singleton] at hmem
      rw [hmem]
    rw [hr] at hname
    exact absurd hname (by decide)

/-- C2 as stated fails: `tiedAB` and `tiedBA` are permutations of each other, and
`AnalyseResponses` on two fresh services gives `CityA` for one and `CityB` for the other
as `HighestMeanTemperatureCity`. -/
theorem AnalyseResponses_perm_tie_counterexample :
    List.Perm tiedAB tiedBA
    ∧ (AnalyseResponses { responses := some tiedAB }).1.results
        ≠ (AnalyseResponses { responses := some tiedBA }).1.results := by
  refine ⟨List.Perm.swap _ _ _, by decide⟩

/-- C2 amended: for every list of responses and every permutation of it, if for each of the
three metrics no two successful responses with different names share a positive maximum,
then `AnalyseResponses` on two fresh services yields the same `Results` and the same
returned error. -/
theorem AnalyseResponses_perm_of_noTie (s s' : service) (l l' : List CityResponse)
    (hperm : List.Perm l l')
    (hresp : s.responses = some l) (hresp' : s'.responses = some l')
    (hres : s.results = {}) (hres' : s'.results = {})
    (hmean : NoTieAtMax (fun r => r.MeanTemperature) l)
    (hmist : NoTieAtMax (fun r => r.DaysWithMist) l)
    (hclear : NoTieAtMax (fun r => r.DaysWithClearSky) l) :
    (AnalyseResponses s).1.results = (AnalyseResponses s').1.results
    ∧ (AnalyseResponses s).2 = (AnalyseResponses s').2 := by
  constructor
  · apply Results.ext
    · rw [AnalyseResponses_highest_eq s l hresp, AnalyseResponses_highest_eq s' l' hresp',
        hres, hres']
      exact congrArg Prod.snd (track_foldl_perm _ hperm _ hmean)
    · rw [AnalyseResponses_mist_eq s l hresp, AnalyseResponses_mist_eq s' l' hresp',
        hres, hres']
      rw [track_foldl_perm _ hperm _ hmist]
    · rw [AnalyseResponses_clearSky_eq s l hresp, AnalyseResponses_clearSky_eq s' l' hresp',
        hres, hres']
      rw [track_foldl_perm _ hperm _ hclear]
  · rw [AnalyseResponses_of_some s l hresp, AnalyseResponses_of_some s' l' hresp']

/-- Witness for C2 amended: the two responses of the "Successful analysis" test case in
both arrival orders. -/
theorem AnalyseResponses_perm_of_noTie_witness :
    List.Perm successfulAnalysis successfulAnalysis.reverse
    ∧ NoTieAtMax (fun r => r.MeanTemperature) successfulAnalysis
    ∧ NoTieAtMax (fun r => r.DaysWithMist) successfulAnalysis
    ∧ NoTieAtMax (fun r => r.DaysWithClearSky) successfulAnalysis
    ∧ (AnalyseResponses { responses := some successfulAnalysis }).1.results
        = (AnalyseResponses { responses := some successfulAnalysis.reverse }).1.results
    ∧ (AnalyseResponses { responses := some successfulAnalysis }).2
        = (AnalyseResponses { responses := some successfulAnalysis.reverse }).2 := by
  have hm : NoTieAtMax (fun r => r.MeanTemperature) successfulAnalysis := by
    unfold NoTieAtMax successfulAnalysis
    simp only [List.mem_cons, List.mem_singleton, List.not_mem_nil, or_false]
    rintro r₁ (rfl | rfl) r₂ (rfl | rfl) - - - h - <;> first | rfl | (exact absurd h (by decide))
  have hi : NoTieAtMax (fun r => r.DaysWithMist) successfulAnalysis := by
    unfold NoTieAtMax successfulAnalysis
    simp only [List.mem_cons, List.mem_singleton, List.not_mem_nil, or_false]
    rintro r₁ (rfl | rfl) r₂ (rfl | rfl) - - - h - <;> first | rfl | (exact absurd h (by decide))
  have hc : NoTieAtMax (fun r => r.DaysWithClearSky) successfulAnalysis := by
    unfold NoTieAtMax successfulAnalysis
    simp only [List.mem_cons, List.mem_singleton, List.not_mem_nil, or_false]
    rintro r₁ (rfl | rfl) r₂ (rfl | rfl) - - - h - <;> first | rfl | (exact absurd h (by decide))
  exact ⟨(List.reverse_perm successfulAnalysis).symm, hm, hi, hc,
    AnalyseResponses_perm_of_noTie _ _ successfulAnalysis successfulAnalysis.reverse
      ((List.reverse_perm successfulAnalysis).symm) rfl rfl rfl rfl hm hi hc⟩

/-- C3: for every non-empty list of responses whose successful results have non-negative
`DaysWithMist` and `DaysWithClearSky`, after `AnalyseResponses` on a service with empty
results: `MostMistCity` is the name of the first successful response with the maximum
`DaysWithMist` when some successful response has a positive `DaysWithMist`, and the
sentinel "No city had mist" otherwise; likewise `MostClearSkyCity` with
`DaysWithClearSky` and the sentinel "No city had clear sky". -/
theorem AnalyseResponses_most_mist_and_clear_sky (s : service) (l : List CityResponse)
    (hresp : s.responses = some l) (_hne : l ≠ []) (hres : s.results = {})
    (_hnonneg : ∀ r ∈ l, Successful r → 0 ≤ r.DaysWithMist ∧ 0 ≤ r.DaysWithClearSky) :
    ((∃ r ∈ l, Successful r ∧ 0 < r.DaysWithMist) →
        IsFirstSuccessfulMax (fun r => r.DaysWithMist) l
          (AnalyseResponses s).1.results.MostMistCity)
    ∧ ((¬ ∃ r ∈ l, Successful r ∧ 0 < r.DaysWithMist) →
        (AnalyseResponses s).1.results.MostMistCity = "No city had mist")
    ∧ ((∃ r ∈ l, Successful r ∧ 0 < r.DaysWithClearSky) →
        IsFirstSuccessfulMax (fun r => r.DaysWithClearSky) l
          (AnalyseResponses s).1.results.MostClearSkyCity)
    ∧ ((¬ ∃ r ∈ l, Successful r ∧ 0 < r.DaysWithClearSky) →
        (AnalyseResponses s).1.results.MostClearSkyCity = "No city had clear sky") := by
  rw [AnalyseResponses_mist_eq s l hresp, AnalyseResponses_clearSky_eq s l hresp, hres]
  have hm := track_foldl_zero (fun r : CityResponse => r.DaysWithMist) l
  have hc := track_foldl_zero (fun r : CityResponse => r.DaysWithClearSky) l
  refine ⟨fun hpos => ?_, fun hnone => ?_, fun hpos => ?_, fun hnone => ?_⟩
  · obtain ⟨hlt, hfirst⟩ := hm.1 hpos
    rw [if_neg (fun hzero => absurd hzero.1 (ne_of_gt hlt))]
    exact hfirst
  · rw [hm.2 hnone]
    simp
  · obtain ⟨hlt, hfirst⟩ := hc.1 hpos
    rw [if_neg (fun hzero => absurd hzero.1 (ne_of_gt hlt))]
    exact hfirst
  · rw [hc.2 hnone]
    simp

/-- Witness for C3: the "Successful analysis" case of `TestService_AnalyseResponses`, where
`CityA` has the most mist and `CityB` the most clear sky. -/
theorem AnalyseResponses_most_mist_and_clear_sky_witness :
    successfulAnalysis ≠ []
    ∧ (∀ r ∈ successfulAnalysis, Successful r → 0 ≤ r.DaysWithMist ∧ 0 ≤ r.DaysWithClearSky)
    ∧ (∃ r ∈ successfulAnalysis, Successful r ∧ 0 < r.DaysWithMist)
    ∧ (∃ r ∈ successfulAnalysis, Successful r ∧ 0 < r.DaysWithClearSky)
    ∧ (AnalyseResponses { responses := some successfulAnalysis }).1.results.MostMistCity
        = "CityA"
    ∧ (AnalyseResponses { responses := some successfulAnalysis }).1.results.MostClearSkyCity
        = "CityB"
    ∧ IsFirstSuccessfulMax (fun r => r.DaysWithMist) successfulAnalysis
        (AnalyseResponses { responses := some successfulAnalysis }).1.results.MostMistCity
    ∧ IsFirstSuccessfulMax (fun r => r.DaysWithClearSky) successfulAnalysis
        (AnalyseResponses { responses := some successfulAnalysis }).1.results.MostClearSkyCity := by
  have hne : successfulAnalysis ≠ [] := by decide
  have hnn : ∀ r ∈ successfulAnalysis, Successful r →
      0 ≤ r.DaysWithMist ∧ 0 ≤ r.DaysWithClearSky := by decide
  have hmist : ∃ r ∈ successfulAnalysis, Successful r ∧ 0 < r.DaysWithMist := by decide
  have hclear : ∃ r ∈ successfulAnalysis, Successful r ∧ 0 < r.DaysWithClearSky := by decide
  have h := AnalyseResponses_most_mist_and_clear_sky
    { responses := some successfulAnalysis } successfulAnalysis rfl hne rfl hnn
  exact ⟨hne, hnn, hmist, hclear, by decide, by decide, h.1 hmist, h.2.2.1 hclear⟩

/-- C4 as stated fails: on a service whose responses are the empty non-nil list,
`AnalyseResponses` returns no error. -/
theorem AnalyseResponses_empty_nonnil_counterexample :
    (AnalyseResponses { responses := some [] }).2 = none
    ∧ (AnalyseResponses { responses := some [] }).1.results
        = { HighestMeanTemperatureCity := "", MostMistCity := "No city had mist",
            MostClearSkyCity := "No city had clear sky" } := by
  decide

/-- C4 amended: `AnalyseResponses` returns an error exactly when the collected responses
are nil; it is then the empty-input error and the service is left unchanged. -/
theorem AnalyseResponses_error_iff_nil (s : service) :
    ((AnalyseResponses s).2 ≠ none ↔ s.responses = none)
    ∧ (s.responses = none →
        AnalyseResponses s
          = (s, some "no responses to analyse, run the collection step first")) := by
  unfold AnalyseResponses
  cases h : s.responses with
  | none => simp
  | some l => simp

/-- C6: for every non-empty list of responses that all carry a failure, `AnalyseResponses`
on a service with empty results returns no error, sets `MostMistCity` to "No city had
mist" and `MostClearSkyCity` to "No city had clear sky", and leaves
`HighestMeanTemperatureCity` empty. -/
theorem AnalyseResponses_all_failed (s : service) (l : List CityResponse)
    (hresp : s.responses = some l) (_hne : l ≠ []) (hres : s.results = {})
    (hfail : ∀ r ∈ l, r.Error ≠ none) :
    (AnalyseResponses s).2 = none
    ∧ (AnalyseResponses s).1.results.MostMistCity = "No city had mist"
    ∧ (AnalyseResponses s).1.results.MostClearSkyCity = "No city had clear sky"
    ∧ (AnalyseResponses s).1.results.HighestMeanTemperatureCity = "" := by
  have hnot : ∀ {α : Type} [LinearOrder α] (m : CityResponse → α) (p : α × String),
      l.foldl (track m) p = p := by
    intro α _ m p
    apply track_foldl_of_le
    intro r hr hrs
    exact absurd hrs (hfail r hr)
  refine ⟨?_, ?_, ?_, ?_⟩
  · rw [AnalyseResponses_of_some s l hresp]
  · rw [AnalyseResponses_mist_eq s l hresp, hres, hnot]
    simp
  · rw [AnalyseResponses_clearSky_eq s l hresp, hres, hnot]
    simp
  · rw [AnalyseResponses_highest_eq s l hresp, hres, hnot]

/-- Witness for C6: two failed responses, one of them carrying numeric values. -/
theorem AnalyseResponses_all_failed_witness :
    allFailed ≠ []
    ∧ (∀ r ∈ allFailed, r.Error ≠ none)
    ∧ (AnalyseResponses { responses := some allFailed }).2 = none
    ∧ (AnalyseResponses { responses := some allFailed }).1.results.MostMistCity
        = "No city had mist"
    ∧ (AnalyseResponses { responses := some allFailed }).1.results.MostClearSkyCity
        = "No city had clear sky"
    ∧ (AnalyseResponses { responses := some allFailed }).1.results.HighestMeanTemperatureCity
        = "" :=
  ⟨by decide, by decide,
    AnalyseResponses_all_failed { responses := some allFailed } allFailed rfl
      (by decide) rfl (by decide)⟩

/-- Supporting fact for C10: whenever `AnalyseResponses` runs the loop, `count` grows by
the number of successful responses. -/
theorem AnalyseResponses_count_general (s : service) (l : List CityResponse)
    (hresp : s.responses = some l) :
    (AnalyseResponses s).2 = none
    ∧ (AnalyseResponses s).1.count
        = s.count + ((l.filter (fun r => decide (r.Error = none))).length : Int) := by
  refine ⟨?_, AnalyseResponses_count_eq s l hresp⟩
  rw [AnalyseResponses_of_some s l hresp]

/-- C10 at a failing input: on the two failed responses `allFailed`, with `count` initially
0, `AnalyseResponses` returns no error and leaves `count` at 0, so the division
`duration/time.Duration(svc.count)` of `main` has a zero divisor and panics. -/
theorem AnalyseResponses_count_zero_all_failed :
    (AnalyseResponses { responses := some allFailed, count := 0 }).2 = none
    ∧ (AnalyseResponses { responses := some allFailed, count := 0 }).1.count = 0
    ∧ (∀ duration : Int,
        averageTimePerCity duration
          (AnalyseResponses { responses := some allFailed, count := 0 }).1 = none) := by
  refine ⟨by decide, by decide, fun duration => ?_⟩
  have h : (AnalyseResponses { responses := some allFailed, count := 0 }).1.count = 0 := by
    decide
  simp [averageTimePerCity, h]

/-- Witness for C7 on the two cases of `TestService_ProcessCity`: a fetch that returns
temperatures 20, 25, 30 and codes 1, 2, 1, 3, 1 with `mistCode` 1 and `clearSkyCode` 2,
and a fetch that fails. -/
theorem processCity_spec_witness :
    ((processCity { config := { mistCode := 1, clearSkyCode := 2 } } { City := "CityA" }
        (Except.ok { Daily := { Temperature2mMean := [20, 25, 30],
                                WeatherCode := [1, 2, 1, 3, 1] } })).CityName = "CityA"
      ∧ (processCity { config := { mistCode := 1, clearSkyCode := 2 } } { City := "CityA" }
        (Except.ok { Daily := { Temperature2mMean := [20, 25, 30],
                                WeatherCode := [1, 2, 1, 3, 1] } })).Error = none
      ∧ (processCity { config := { mistCode := 1, clearSkyCode := 2 } } { City := "CityA" }
        (Except.ok { Daily := { Temperature2mMean := [20, 25, 30],
                                WeatherCode := [1, 2, 1, 3, 1] } })).MeanTemperature = 25
      ∧ (processCity { config := { mistCode := 1, clearSkyCode := 2 } } { City := "CityA" }
        (Except.ok { Daily := { Temperature2mMean := [20, 25, 30],
                                WeatherCode := [1, 2, 1, 3, 1] } })).DaysWithMist = 3
      ∧ (processCity { config := { mistCode := 1, clearSkyCode := 2 } } { City := "CityA" }
        (Except.ok { Daily := { Temperature2mMean := [20, 25, 30],
                                WeatherCode := [1, 2, 1, 3, 1] } })).DaysWithClearSky = 1)
    ∧ processCity { config := { mistCode := 1, clearSkyCode := 2 } } { City := "CityB" }
        (Except.error "bad status: 500")
      = { CityName := "CityB", MeanTemperature := 0, DaysWithMist := 0,
          DaysWithClearSky := 0, Error := some "bad status: 500" } := by
  refine ⟨?_, ?_⟩
  · have h := processCity_spec { config := { mistCode := 1, clearSkyCode := 2 } }
      { City := "CityA" }
      (Except.ok { Daily := { Temperature2mMean := [20, 25, 30],
                              WeatherCode := [1, 2, 1, 3, 1] } })
    obtain ⟨hname, -, hok⟩ := h
    obtain ⟨herr, hmean, hmist, hclear⟩ := hok _ rfl
    refine ⟨hname, herr, ?_, ?_, ?_⟩
    · rw [hmean]
      simp [calculateMeanTemperature]
      norm_num
    · rw [hmist]
      decide
    · rw [hclear]
      decide
  · exact ((processCity_spec { config := { mistCode := 1, clearSkyCode := 2 } }
      { City := "CityB" } (Except.error "bad status: 500")).2.1 _ rfl).1

/-- Witness for C9 on the cases of `TestCountWeatherCodes`. -/
theorem countWeatherCodes_spec_witness :
    countWeatherCodes [] 1 = 0
    ∧ countWeatherCodes [1, 2, 1, 3, 1] 1 = 3
    ∧ countWeatherCodes [1, 1, 1, 1] 1 = 4
    ∧ countWeatherCodes [2, 3, 4, 5] 1 = 0 := by
  refine ⟨(countWeatherCodes_spec [] 1).2.2.1, by decide, ?_, ?_⟩
  · exact (countWeatherCodes_spec [1, 1, 1, 1] 1).2.2.2.2.1 (by decide)
  · exact (countWeatherCodes_spec [2, 3, 4, 5] 1).2.2.2.1 (by decide)

end MeteoAnalyser
